import Mathlib

/-!
Shallow embedding of the Fapshi Node.js SDK client (`src/client.ts`,
`src/types.ts`) in Lean 4.

Modelling conventions:
* JavaScript runtime values that may be absent (`undefined`) are modelled
  with `Option`; numbers that appear in validation guards are modelled as
  `Int` (they are integer amounts / limits / HTTP statuses in this code).
* JavaScript truthiness on the values that actually occur in the guards is
  made explicit: `strFalsy` (absent or empty string), `numFalsy` (absent or
  zero).
* Each public operation is split into its local-validation phase, a pure
  function returning `Except FapshiError RequestSpec`: a `.error` result is
  a local failure thrown before any network activity, a `.ok` result is the
  HTTP request that the method hands to the shared `request` routine.
* The shared `request` routine is modelled as a pure function of the fetch
  outcome: either a parsed HTTP response (status, the `message` field of
  the parsed JSON body, and the body typed as the caller expects) or a
  thrown transport-level error. Bodies are assumed to be valid JSON, as the
  code itself assumes when it reads `data.message`.
-/

namespace Fapshi

/-- The two deployment environments (`Environment` in `types.ts`). -/
inductive Environment where
  | sandbox
  | live
  deriving DecidableEq, Repr

/-- The typed error of the SDK (`FapshiError` in `client.ts`): a message and
an optional HTTP status code. -/
structure FapshiError where
  message : String
  statusCode : Option Nat
  deriving DecidableEq, Repr

/-- Client configuration (`FapshiConfig` in `types.ts`). -/
structure FapshiConfig where
  apiUser : String
  apiKey : String
  environment : Option Environment
  baseUrl : Option String
  deriving DecidableEq, Repr

/-- JavaScript truthiness of an optional string: `undefined` and the empty
string are falsy. -/
def strFalsy : Option String → Bool
  | none => true
  | some s => s == ""

/-- JavaScript truthiness of an optional number: `undefined` and `0` are
falsy (`NaN` does not occur in this integer model). -/
def numFalsy : Option Int → Bool
  | none => true
  | some n => n == 0

/-- JavaScript `a < b` where `a` may be `undefined`: comparing `undefined`
with a number yields `false`. -/
def jsLtNum : Option Int → Int → Bool
  | none, _ => false
  | some n, b => decide (n < b)

/-- Boolean prefix test on character lists (JavaScript
`String.prototype.startsWith`, written out so that it evaluates inside the
kernel). -/
def listIsPrefixOf : List Char → List Char → Bool
  | [], _ => true
  | _ :: _, [] => false
  | a :: s, b :: t => a == b && listIsPrefixOf s t

/-- JavaScript `s.startsWith(p)`. -/
def strStartsWith (s p : String) : Bool :=
  listIsPrefixOf p.data s.data

/-- `detectEnvironmentFromApiKey` from `client.ts`: `FAK_TEST_` keys are
sandbox, other `FAK_` keys are live, anything else defaults to sandbox. -/
def detectEnvironmentFromApiKey (apiKey : String) : Environment :=
  if strStartsWith apiKey "FAK_TEST_" then Environment.sandbox
  else if strStartsWith apiKey "FAK_" then Environment.live
  else Environment.sandbox

/-- The constructor applies `baseUrl.replace(/\/$/, '')`: it removes one
trailing slash when there is one. -/
def stripTrailingSlash (s : String) : String :=
  if s.data.getLast? = some '/' then String.mk s.data.dropLast else s

/-- The `else` branch of the constructor: `config.environment ||
detectEnvironmentFromApiKey(config.apiKey)`, then the ternary on
`environment === 'live'`. -/
def resolveFromEnvironment (config : FapshiConfig) : String :=
  let environment := config.environment.getD (detectEnvironmentFromApiKey config.apiKey)
  if environment = Environment.live then "https://live.fapshi.com"
  else "https://sandbox.fapshi.com"

/-- Base-URL resolution of the `FapshiClient` constructor. The guard
`if (config.baseUrl)` is a truthiness test: an absent and an empty
`baseUrl` both fall through to environment resolution. -/
def resolveBaseUrl (config : FapshiConfig) : String :=
  match config.baseUrl with
  | some b => if b ≠ "" then stripTrailingSlash b else resolveFromEnvironment config
  | none => resolveFromEnvironment config

/-- A query-parameter value (`string | number | undefined | null` in the
signature of `request`). -/
inductive QueryVal where
  | undef
  | null
  | str (s : String)
  | num (n : Int)
  deriving DecidableEq, Repr

/-- JavaScript `String(value)` on a query-parameter value. -/
def jsString : QueryVal → String
  | QueryVal.undef => "undefined"
  | QueryVal.null => "null"
  | QueryVal.str s => s
  | QueryVal.num n => toString n

/-- The query-building loop of `request`: for each entry, if the value is
neither `undefined` nor `null`, append the stringified value to the search
parameters, otherwise skip it. `init` is the list of search parameters
already present on the URL (empty for every path of this client). -/
def appendQueryParams (init : List (String × String))
    (params : List (String × QueryVal)) : List (String × String) :=
  params.foldl
    (fun acc kv =>
      if kv.2 ≠ QueryVal.undef ∧ kv.2 ≠ QueryVal.null then acc ++ [(kv.1, jsString kv.2)]
      else acc)
    init

/-- A value thrown by the JavaScript runtime inside the `try` block of
`request`: an `Error` instance carrying a message, or any non-`Error`
value. -/
inductive JsThrown where
  | errorObj (message : String)
  | nonError
  deriving DecidableEq, Repr

/-- Outcome of `fetch` + `response.json()` as observed by `request`: a
parsed response carrying the HTTP status, the `message` field of the parsed
JSON body (when the body is an object with one), and the body typed as the
caller expects; or a thrown transport-level error. -/
inductive FetchResult (α : Type) where
  | ok (status : Nat) (message : Option String) (body : α)
  | err (e : JsThrown)

/-- `response.ok` of the fetch API: status in the range 200–299. -/
def statusOk (status : Nat) : Bool :=
  decide (200 ≤ status) && decide (status ≤ 299)

/-- Contiguous-subsequence test on character lists: the needle occurs as a
prefix of some suffix of the haystack. -/
def listContainsSeq (needle : List Char) : List Char → Bool
  | [] => needle.isEmpty
  | c :: rest => listIsPrefixOf needle (c :: rest) || listContainsSeq needle rest

/-- JavaScript `haystack.includes(needle)`. -/
def strIncludes (haystack needle : String) : Bool :=
  listContainsSeq needle.data haystack.data

/-- The substrings `request` looks for in a caught error message to decide
that it is a network error. -/
def networkErrorMarkers : List String :=
  ["failed", "fetch", "ENOTFOUND", "ECONNREFUSED", "ETIMEDOUT"]

/-- The network-error test of the `catch` block of `request`. -/
def isNetworkErrorMessage (message : String) : Bool :=
  networkErrorMarkers.any (fun m => strIncludes message m)

/-- The fallback error message of `request` for a non-2xx response whose
body carries no usable `message` field. -/
def fallbackMessage (status : Nat) : String :=
  "API request failed with status " ++ toString status

/-- `error.message || fallback` of `request`: the body message is used only
when it is present and truthy (non-empty). -/
def orFallback (message : Option String) (status : Nat) : String :=
  match message with
  | some m => if m = "" then fallbackMessage status else m
  | none => fallbackMessage status

/-- The shared `request` routine of `client.ts`, as a function of the fetch
outcome. A non-2xx response raises a `FapshiError` carrying the body
message (or the fallback) and the HTTP status; a thrown `Error` raises a
network-error `FapshiError` without status when its message matches one of
the markers, and is rewrapped with its own message otherwise; a thrown
non-`Error` value raises the generic unexpected-error message. -/
def request {α : Type} (result : FetchResult α) : Except FapshiError α :=
  match result with
  | FetchResult.ok status message body =>
    if statusOk status then Except.ok body
    else Except.error ⟨orFallback message status, some status⟩
  | FetchResult.err (JsThrown.errorObj message) =>
    if isNetworkErrorMessage message then
      Except.error ⟨"Network error: Unable to connect to Fapshi API. " ++ message, none⟩
    else Except.error ⟨message, none⟩
  | FetchResult.err JsThrown.nonError =>
    Except.error ⟨"An unexpected error occurred", none⟩

/-- The HTTP request a public method hands to `request` after its local
validation succeeded: method, path, and query parameters. The body sent
for mutating methods is the validated request record itself, serialized
verbatim, so it is not repeated here. -/
structure RequestSpec where
  method : String
  path : String
  query : List (String × QueryVal)
  deriving DecidableEq, Repr

/-- `InitiatePayRequest` from `types.ts`; `amount` is optional here because
the runtime guard `!request.amount` accounts for callers omitting it. -/
structure InitiatePayRequest where
  amount : Option Int
  email : Option String
  redirectUrl : Option String
  userId : Option String
  externalId : Option String
  message : Option String
  deriving DecidableEq, Repr

/-- `DirectPayRequest` from `types.ts`. -/
structure DirectPayRequest where
  amount : Option Int
  phone : Option String
  medium : Option String
  name : Option String
  email : Option String
  userId : Option String
  externalId : Option String
  message : Option String
  deriving DecidableEq, Repr

/-- `PayoutRequest` from `types.ts`; `medium` is kept as a raw string so
that every runtime value other than `"fapshi"` falls into the `else`
branch, as in the source. -/
structure PayoutRequest where
  amount : Option Int
  phone : Option String
  medium : Option String
  name : Option String
  email : Option String
  userId : Option String
  externalId : Option String
  message : Option String
  deriving DecidableEq, Repr

/-- `SearchTransactionsParams` from `types.ts`. The `end` field is renamed
`endDate` because `end` is a Lean keyword. -/
structure SearchTransactionsParams where
  status : Option String
  medium : Option String
  start : Option String
  endDate : Option String
  amt : Option Int
  limit : Option Int
  sort : Option String
  deriving DecidableEq, Repr

/-- The fields of a deserialized `Transaction` body that the client ever
inspects or returns; every field is optional because the JSON body may lack
any of them. -/
structure TransactionBody where
  transId : Option String
  status : Option String
  amount : Option Int
  dateInitiated : Option String
  deriving DecidableEq, Repr

/-- Validation phase of `initiatePay`: the guard
`!request.amount || request.amount < 100`. -/
def initiatePay (r : InitiatePayRequest) : Except FapshiError RequestSpec :=
  if numFalsy r.amount || jsLtNum r.amount 100 then
    Except.error ⟨"Amount must be at least 100", none⟩
  else Except.ok ⟨"POST", "/initiate-pay", []⟩

/-- Validation phase of `directPay`: amount guard, then `!request.phone`. -/
def directPay (r : DirectPayRequest) : Except FapshiError RequestSpec :=
  if numFalsy r.amount || jsLtNum r.amount 100 then
    Except.error ⟨"Amount must be at least 100", none⟩
  else if strFalsy r.phone then
    Except.error ⟨"Phone number is required", none⟩
  else Except.ok ⟨"POST", "/direct-pay", []⟩

/-- Validation phase of `payout`: amount guard, then the conditional on
`request.medium === 'fapshi'` requiring `email`, with every other medium
(or none) requiring `phone`. -/
def payout (r : PayoutRequest) : Except FapshiError RequestSpec :=
  if numFalsy r.amount || jsLtNum r.amount 100 then
    Except.error ⟨"Amount must be at least 100", none⟩
  else if r.medium == some "fapshi" then
    if strFalsy r.email then
      Except.error ⟨"Email is required when medium is \"fapshi\"", none⟩
    else Except.ok ⟨"POST", "/payout", []⟩
  else
    if strFalsy r.phone then
      Except.error ⟨"Phone is required when medium is not \"fapshi\" or not specified", none⟩
    else Except.ok ⟨"POST", "/payout", []⟩

/-- Validation phase of `expirePay`: `!request.transId`. -/
def expirePay (transId : String) : Except FapshiError RequestSpec :=
  if transId = "" then Except.error ⟨"Transaction ID is required", none⟩
  else Except.ok ⟨"POST", "/expire-pay", []⟩

/-- `getBalance` performs no local validation. -/
def getBalance : RequestSpec :=
  ⟨"GET", "/balance", []⟩

/-- `getPaymentStatus` end to end: the `!transId` presence guard, then the
shared `request` on `GET /payment-status/:transId`, then the post-response
guard `!transaction || !transaction.transId` which raises the synthesized
404, and finally the transaction returned unchanged. The response body is
`Option TransactionBody`: `none` models a JSON `null` body. -/
def getPaymentStatus (transId : String)
    (outcome : FetchResult (Option TransactionBody)) : Except FapshiError TransactionBody :=
  if transId = "" then Except.error ⟨"Transaction ID is required", none⟩
  else
    match request outcome with
    | Except.error e => Except.error e
    | Except.ok transaction =>
      match transaction with
      | none => Except.error ⟨"No transaction found with ID: " ++ transId, some 404⟩
      | some t =>
        if strFalsy t.transId then
          Except.error ⟨"No transaction found with ID: " ++ transId, some 404⟩
        else Except.ok t

/-- A character of the class `[a-zA-Z0-9\-_]`. -/
def isUserIdChar (c : Char) : Bool :=
  (('a' ≤ c && c ≤ 'z') || ('A' ≤ c && c ≤ 'Z') || ('0' ≤ c && c ≤ '9')
    || c == '-' || c == '_')

/-- Semantics of `/^[a-zA-Z0-9\-_]{1,100}$/.test(userId)`: between 1 and
100 characters, all from the class. -/
def userIdPatternTest (s : String) : Bool :=
  decide (1 ≤ s.data.length) && decide (s.data.length ≤ 100) && s.data.all isUserIdChar

/-- Validation phase of `getTransactionsByUserId`: the `!userId` presence
guard, then the pattern test. -/
def getTransactionsByUserId (userId : String) : Except FapshiError RequestSpec :=
  if userId = "" then Except.error ⟨"User ID is required", none⟩
  else if !userIdPatternTest userId then
    Except.error ⟨"User ID must match pattern: ^[a-zA-Z0-9\\-_]\x7b1,100\x7d$", none⟩
  else Except.ok ⟨"GET", "/transaction/" ++ userId, []⟩

/-- An optional string field of the search params, as the query value the
spread object exposes to `request`. -/
def optStrVal : Option String → QueryVal
  | none => QueryVal.undef
  | some s => QueryVal.str s

/-- An optional numeric field of the search params, as the query value the
spread object exposes to `request`. -/
def optNumVal : Option Int → QueryVal
  | none => QueryVal.undef
  | some n => QueryVal.num n

/-- The search params cast to the query-parameter record that
`searchTransactions` passes to `request`. -/
def searchQuery (p : SearchTransactionsParams) : List (String × QueryVal) :=
  [("status", optStrVal p.status), ("medium", optStrVal p.medium),
   ("start", optStrVal p.start), ("end", optStrVal p.endDate),
   ("amt", optNumVal p.amt), ("limit", optNumVal p.limit),
   ("sort", optStrVal p.sort)]

/-- Validation phase of `searchTransactions`: when `params?.limit` is not
`undefined`, require `1 ≤ limit ≤ 100`; then `GET /search` with the params
as query parameters. -/
def searchTransactions (params : Option SearchTransactionsParams) :
    Except FapshiError RequestSpec :=
  match params with
  | none => Except.ok ⟨"GET", "/search", []⟩
  | some p =>
    match p.limit with
    | some l =>
      if l < 1 ∨ l > 100 then Except.error ⟨"Limit must be between 1 and 100", none⟩
      else Except.ok ⟨"GET", "/search", searchQuery p⟩
    | none => Except.ok ⟨"GET", "/search", searchQuery p⟩

/-- Modelled from the amended claim C2 wording: the resolved base URL is
the explicit non-empty `baseUrl` with its trailing slash stripped; when
`baseUrl` is absent or empty, it is the live URL exactly when
`environment` is `live`, or when `environment` is absent and the API key
starts with `FAK_` but not with `FAK_TEST_`; otherwise the sandbox URL. -/
def claimInferredBaseUrl (cfg : FapshiConfig) : String :=
  if cfg.environment = some Environment.live
      ∨ (cfg.environment = none ∧ strStartsWith cfg.apiKey "FAK_" = true
          ∧ strStartsWith cfg.apiKey "FAK_TEST_" = false) then
    "https://live.fapshi.com"
  else "https://sandbox.fapshi.com"

/-- Modelled from the amended claim C2 wording, outer case split on whether
a non-empty `baseUrl` was given. -/
def claimBaseUrl (cfg : FapshiConfig) : String :=
  match cfg.baseUrl with
  | some b => if b = "" then claimInferredBaseUrl cfg else stripTrailingSlash b
  | none => claimInferredBaseUrl cfg

/-- Claim-side description of the amount guard of `initiatePay`,
`directPay` and `payout`: the amount is missing or below 100. -/
def amountMissingOrLow (a : Option Int) : Prop :=
  a = none ∨ ∃ n, a = some n ∧ n < 100

/-- Claim-side description of a transport-level failure as `request`
observes it: node-fetch surfaces DNS resolution failure, connection
refusal and timeout as thrown errors whose messages carry the system error
codes `ENOTFOUND`, `ECONNREFUSED` and `ETIMEDOUT` respectively. -/
def transportFailureMessage (message : String) : Prop :=
  strIncludes message "ENOTFOUND" = true
    ∨ strIncludes message "ECONNREFUSED" = true
    ∨ strIncludes message "ETIMEDOUT" = true

/-- The amount guard shared by `initiatePay`, `directPay` and `payout`
evaluates to `true` on a missing or low amount. -/
theorem amount_guard_eq_true {a : Option Int} (h : amountMissingOrLow a) :
    (numFalsy a || jsLtNum a 100) = true := by
  rcases h with rfl | ⟨n, rfl, hn⟩
  · rfl
  · simp [numFalsy, jsLtNum, hn]

/-- The amount guard evaluates to `false` on an amount of at least 100. -/
theorem amount_guard_eq_false {a : Option Int} {n : Int} (ha : a = some n)
    (hn : 100 ≤ n) : (numFalsy a || jsLtNum a 100) = false := by
  subst ha
  simp only [numFalsy, jsLtNum, Bool.or_eq_false_iff, beq_eq_false_iff_ne,
    decide_eq_false_iff_not]
  omega

/-- C3 (confirmed): whenever the amount passed to `initiatePay`, `directPay`
or `payout` is missing or below 100, the validation phase returns the
amount error, so no `RequestSpec` is produced and no HTTP request is
made; the network call can only happen on the `.ok` branch, after the
amount check succeeded. -/
theorem amount_below_min_fails_locally
    (ip : InitiatePayRequest) (dp : DirectPayRequest) (po : PayoutRequest) :
    (amountMissingOrLow ip.amount →
      initiatePay ip = Except.error ⟨"Amount must be at least 100", none⟩)
    ∧ (amountMissingOrLow dp.amount →
      directPay dp = Except.error ⟨"Amount must be at least 100", none⟩)
    ∧ (amountMissingOrLow po.amount →
      payout po = Except.error ⟨"Amount must be at least 100", none⟩) := by
  refine ⟨fun h => ?_, fun h => ?_, fun h => ?_⟩
  · simp [initiatePay, amount_guard_eq_true h]
  · simp [directPay, amount_guard_eq_true h]
  · simp [payout, amount_guard_eq_true h]

/-- C3 witness: concrete low-amount requests all fail locally. -/
theorem amount_below_min_fails_locally_witness :
    initiatePay ⟨some 50, none, none, none, none, none⟩ =
      Except.error ⟨"Amount must be at least 100", none⟩
    ∧ directPay ⟨none, some "670000000", none, none, none, none, none, none⟩ =
      Except.error ⟨"Amount must be at least 100", none⟩
    ∧ payout ⟨some 99, some "670000000", none, none, none, none, none, none⟩ =
      Except.error ⟨"Amount must be at least 100", none⟩ := by
  have h := amount_below_min_fails_locally ⟨some 50, none, none, none, none, none⟩
    ⟨none, some "670000000", none, none, none, none, none, none⟩
    ⟨some 99, some "670000000", none, none, none, none, none, none⟩
  exact ⟨h.1 (Or.inr ⟨50, rfl, by decide⟩), h.2.1 (Or.inl rfl),
    h.2.2 (Or.inr ⟨99, rfl, by decide⟩)⟩

/-- C4 counterexample: a payout with amount 500, medium `fapshi`, an email
field that is present but equal to the empty string, and no phone. The
claim says the request proceeds to the network because the email is
present; the code fails locally with the email-required error, because the
guard `!request.email` tests truthiness, not presence. -/
theorem payout_empty_email_cex :
    payout ⟨some 500, none, some "fapshi", none, some "", none, none, none⟩ =
      Except.error ⟨"Email is required when medium is \"fapshi\"", none⟩
    ∧ (⟨some 500, none, some "fapshi", none, some "", none, none, none⟩ :
        PayoutRequest).email ≠ none :=
  ⟨rfl, by decide⟩

/-- C4 (amended): for a payout with amount at least 100: with medium
`fapshi` a missing or empty email fails locally and a non-empty email
proceeds even with no phone; with any other or no medium a missing or
empty phone fails locally and a non-empty phone proceeds. -/
theorem payout_medium_validation (po : PayoutRequest) (n : Int)
    (ha : po.amount = some n) (hn : 100 ≤ n) :
    (po.medium = some "fapshi" → (po.email = none ∨ po.email = some "") →
      payout po = Except.error ⟨"Email is required when medium is \"fapshi\"", none⟩)
    ∧ (∀ e, po.medium = some "fapshi" → po.email = some e → e ≠ "" →
      payout po = Except.ok ⟨"POST", "/payout", []⟩)
    ∧ (po.medium ≠ some "fapshi" → (po.phone = none ∨ po.phone = some "") →
      payout po =
        Except.error ⟨"Phone is required when medium is not \"fapshi\" or not specified", none⟩)
    ∧ (∀ p, po.medium ≠ some "fapshi" → po.phone = some p → p ≠ "" →
      payout po = Except.ok ⟨"POST", "/payout", []⟩) := by
  have hg := amount_guard_eq_false ha hn
  refine ⟨fun hm he => ?_, fun e hm he hne => ?_, fun hm hp => ?_, fun p hm hp hnp => ?_⟩
  · have : strFalsy po.email = true := by rcases he with h | h <;> simp [strFalsy, h]
    simp [payout, hg, hm, this]
  · have : strFalsy po.email = false := by simp [strFalsy, he, hne]
    simp [payout, hg, hm, this]
  · have : strFalsy po.phone = true := by rcases hp with h | h <;> simp [strFalsy, h]
    simp [payout, hg, hm, this]
  · have : strFalsy po.phone = false := by simp [strFalsy, hp, hnp]
    simp [payout, hg, hm, this]

/-- C4 witness: a payout with medium `fapshi`, a non-empty email and no
phone proceeds to the network. -/
theorem payout_medium_validation_witness :
    payout ⟨some 500, none, some "fapshi", none, some "a@b.cm", none, none, none⟩ =
      Except.ok ⟨"POST", "/payout", []⟩ :=
  (payout_medium_validation
      ⟨some 500, none, some "fapshi", none, some "a@b.cm", none, none, none⟩ 500 rfl
      (by decide)).2.1 "a@b.cm" rfl rfl (by decide)

/-- C8 (confirmed): `searchTransactions` fails locally when a provided
limit lies outside `[1,100]`, and proceeds to `GET /search` when the limit
is omitted (or the whole params record is) or lies within `[1,100]`. -/
theorem searchTransactions_limit (params : Option SearchTransactionsParams) :
    (∀ p l, params = some p → p.limit = some l → (l < 1 ∨ 100 < l) →
      searchTransactions params = Except.error ⟨"Limit must be between 1 and 100", none⟩)
    ∧ (∀ p l, params = some p → p.limit = some l → 1 ≤ l → l ≤ 100 →
      searchTransactions params = Except.ok ⟨"GET", "/search", searchQuery p⟩)
    ∧ (∀ p, params = some p → p.limit = none →
      searchTransactions params = Except.ok ⟨"GET", "/search", searchQuery p⟩)
    ∧ (params = none → searchTransactions params = Except.ok ⟨"GET", "/search", []⟩) := by
  refine ⟨?_, ?_, ?_, ?_⟩
  · rintro p l rfl hl hout
    have : (l < 1 ∨ l > 100) := by omega
    simp [searchTransactions, hl, this]
  · rintro p l rfl hl h1 h100
    have : ¬(l < 1 ∨ l > 100) := by omega
    simp [searchTransactions, hl, this]
  · rintro p rfl hl
    simp [searchTransactions, hl]
  · rintro rfl
    simp [searchTransactions]

/-- C8 witness: a provided limit of 0 fails locally and a provided limit of
10 proceeds. -/
theorem searchTransactions_limit_witness :
    searchTransactions (some ⟨none, none, none, none, none, some 0, none⟩) =
      Except.error ⟨"Limit must be between 1 and 100", none⟩
    ∧ searchTransactions (some ⟨none, none, none, none, none, some 10, none⟩) =
      Except.ok ⟨"GET", "/search",
        searchQuery ⟨none, none, none, none, none, some 10, none⟩⟩ :=
  ⟨(searchTransactions_limit (some ⟨none, none, none, none, none, some 0, none⟩)).1
      ⟨none, none, none, none, none, some 0, none⟩ 0 rfl rfl (by omega),
    (searchTransactions_limit (some ⟨none, none, none, none, none, some 10, none⟩)).2.1
      ⟨none, none, none, none, none, some 10, none⟩ 10 rfl rfl (by omega) (by omega)⟩

/-- C1 counterexample: a 400 response whose body has a `message` field that
is present but equal to the empty string. The claim says the raised error
message equals that field; the code raises the generic fallback instead,
because `error.message || fallback` tests truthiness, not presence. -/
theorem request_non_2xx_empty_message_cex :
    request (FetchResult.ok 400 (some "") ()) =
      Except.error ⟨"API request failed with status 400", some 400⟩
    ∧ "API request failed with status 400" ≠ "" :=
  ⟨rfl, by decide⟩

/-- C1 (amended): every non-2xx response makes `request` raise a
`FapshiError` whose status code equals the HTTP status, and whose message
equals the body `message` field when that field is present and non-empty,
and the generic fallback mentioning the status otherwise. -/
theorem request_non_2xx_error (α : Type) (status : Nat) (message : Option String)
    (body : α) (h : ¬(200 ≤ status ∧ status ≤ 299)) :
    ∃ e, request (FetchResult.ok status message body) = Except.error e
      ∧ e.statusCode = some status
      ∧ (∀ m, message = some m → m ≠ "" → e.message = m)
      ∧ ((message = none ∨ message = some "") →
          e.message = "API request failed with status " ++ toString status) := by
  push_neg at h
  have hs : statusOk status = false := by
    simp only [statusOk, Bool.and_eq_false_iff, decide_eq_false_iff_not]
    omega
  refine ⟨⟨orFallback message status, some status⟩, ?_, rfl, ?_, ?_⟩
  · simp [request, hs]
  · rintro m rfl hm
    simp [orFallback, hm]
  · rintro (rfl | rfl) <;> simp [orFallback, fallbackMessage]

/-- C1 witness: a 404 response with no body message raises the fallback
message with status code 404. -/
theorem request_non_2xx_error_witness :
    ∃ e, request (FetchResult.ok 404 none ()) = Except.error e
      ∧ e.statusCode = some 404
      ∧ (∀ m, (none : Option String) = some m → m ≠ "" → e.message = m)
      ∧ (((none : Option String) = none ∨ (none : Option String) = some "") →
          e.message = "API request failed with status " ++ toString 404) :=
  request_non_2xx_error Unit 404 none () (by omega)

/-- C6 (confirmed): a transport-level failure (DNS resolution failure,
connection refusal or timeout, whose thrown messages carry `ENOTFOUND`,
`ECONNREFUSED` or `ETIMEDOUT`) makes `request` raise a `FapshiError` with
the network-error message and no status code, so it is never a
server-status error. -/
theorem request_transport_failure (α : Type) (message : String)
    (h : transportFailureMessage message) :
    request (FetchResult.err (JsThrown.errorObj message) : FetchResult α) =
      Except.error ⟨"Network error: Unable to connect to Fapshi API. " ++ message, none⟩ := by
  have hm : isNetworkErrorMessage message = true := by
    unfold isNetworkErrorMessage
    rcases h with h | h | h
    · exact List.any_eq_true.mpr ⟨"ENOTFOUND", by simp [networkErrorMarkers], h⟩
    · exact List.any_eq_true.mpr ⟨"ECONNREFUSED", by simp [networkErrorMarkers], h⟩
    · exact List.any_eq_true.mpr ⟨"ETIMEDOUT", by simp [networkErrorMarkers], h⟩
  simp [request, hm]

/-- C6 witness: a DNS failure message as node-fetch produces it maps to the
network error with no status code. -/
theorem request_transport_failure_witness :
    request (FetchResult.err (JsThrown.errorObj
        "request to https://sandbox.fapshi.com/balance failed, reason: getaddrinfo ENOTFOUND sandbox.fapshi.com") :
        FetchResult Unit) =
      Except.error ⟨"Network error: Unable to connect to Fapshi API. request to https://sandbox.fapshi.com/balance failed, reason: getaddrinfo ENOTFOUND sandbox.fapshi.com", none⟩ :=
  request_transport_failure Unit
    "request to https://sandbox.fapshi.com/balance failed, reason: getaddrinfo ENOTFOUND sandbox.fapshi.com"
    (Or.inl (by decide))

/-- C5 counterexample: a 2xx response whose body carries a `transId` field
equal to the empty string. The claim says a result carrying a `transId` is
returned unchanged; the code raises the synthesized 404 instead, because
`!transaction.transId` tests truthiness, not presence. -/
theorem getPaymentStatus_empty_transId_cex :
    getPaymentStatus "tx1" (FetchResult.ok 200 none (some ⟨some "", none, none, none⟩)) =
      Except.error ⟨"No transaction found with ID: tx1", some 404⟩
    ∧ (⟨some "", none, none, none⟩ : TransactionBody).transId = some "" :=
  ⟨rfl, rfl⟩

/-- C5 (amended): for a present `transId` argument and a successful HTTP
response, a body that lacks a `transId` field, carries an empty one, or is
null raises the synthesized 404 `FapshiError`, and a body carrying a
non-empty `transId` is returned unchanged. -/
theorem getPaymentStatus_not_found_amended (transId : String) (status : Nat)
    (message : Option String) (tr : Option TransactionBody)
    (h0 : transId ≠ "") (hs : statusOk status = true) :
    ((tr = none ∨ ∃ t, tr = some t ∧ (t.transId = none ∨ t.transId = some "")) →
      getPaymentStatus transId (FetchResult.ok status message tr) =
        Except.error ⟨"No transaction found with ID: " ++ transId, some 404⟩)
    ∧ (∀ t s, tr = some t → t.transId = some s → s ≠ "" →
      getPaymentStatus transId (FetchResult.ok status message tr) = Except.ok t) := by
  constructor
  · rintro (rfl | ⟨t, rfl, ht⟩)
    · simp [getPaymentStatus, h0, request, hs]
    · have hf : strFalsy t.transId = true := by rcases ht with h | h <;> simp [strFalsy, h]
      simp [getPaymentStatus, h0, request, hs, hf]
  · rintro t s rfl hts hne
    have hf : strFalsy t.transId = false := by simp [strFalsy, hts, hne]
    simp [getPaymentStatus, h0, request, hs, hf]

/-- C5 witness: a body with a non-empty `transId` is returned unchanged. -/
theorem getPaymentStatus_not_found_amended_witness :
    getPaymentStatus "tx" (FetchResult.ok 200 none (some ⟨some "abc", none, none, none⟩)) =
      Except.ok ⟨some "abc", none, none, none⟩ :=
  (getPaymentStatus_not_found_amended "tx" 200 none (some ⟨some "abc", none, none, none⟩)
      (by decide) (by decide)).2 ⟨some "abc", none, none, none⟩ "abc" rfl rfl (by decide)

/-- C10 (confirmed): with a present `transId` argument, `getPaymentStatus`
raises the synthesized 404 whenever the responded transId is falsy: in
particular when it is present but equal to the empty string, and when the
whole body is null; consequently every transaction it returns has a
non-empty `transId`. -/
theorem getPaymentStatus_falsy_transId (transId : String) (h0 : transId ≠ "") :
    (∀ status message t, statusOk status = true → t.transId = some "" →
      getPaymentStatus transId (FetchResult.ok status message (some t)) =
        Except.error ⟨"No transaction found with ID: " ++ transId, some 404⟩)
    ∧ (∀ status message, statusOk status = true →
      getPaymentStatus transId (FetchResult.ok status message none) =
        Except.error ⟨"No transaction found with ID: " ++ transId, some 404⟩)
    ∧ (∀ outcome t, getPaymentStatus transId outcome = Except.ok t →
      ∃ s, t.transId = some s ∧ s ≠ "") := by
  refine ⟨?_, ?_, ?_⟩
  · intro status message t hs hts
    have hf : strFalsy t.transId = true := by simp [strFalsy, hts]
    simp [getPaymentStatus, h0, request, hs, hf]
  · intro status message hs
    simp [getPaymentStatus, h0, request, hs]
  · intro outcome t h
    rw [getPaymentStatus, if_neg h0] at h
    cases hr : request outcome with
    | error e => rw [hr] at h; exact absurd h (by simp)
    | ok tr =>
      rw [hr] at h
      match tr with
      | none => simp at h
      | some t' =>
        cases hts : t'.transId with
        | none =>
          have hf : strFalsy t'.transId = true := by simp [strFalsy, hts]
          simp [hf] at h
        | some s =>
          by_cases hse : s = ""
          · subst hse
            have hf : strFalsy t'.transId = true := by simp [strFalsy, hts]
            simp [hf] at h
          · have hf : strFalsy t'.transId = false := by simp [strFalsy, hts, hse]
            simp [hf] at h
            exact ⟨s, by rw [← h, hts], hse⟩

/-- C10 witness: an empty-string `transId` in the body and a null body each
raise the synthesized 404. -/
theorem getPaymentStatus_falsy_transId_witness :
    getPaymentStatus "tx9" (FetchResult.ok 200 none (some ⟨some "", none, none, none⟩)) =
      Except.error ⟨"No transaction found with ID: tx9", some 404⟩
    ∧ getPaymentStatus "tx9" (FetchResult.ok 200 none none) =
      Except.error ⟨"No transaction found with ID: tx9", some 404⟩ :=
  ⟨(getPaymentStatus_falsy_transId "tx9" (by decide)).1 200 none
      ⟨some "", none, none, none⟩ (by decide) rfl,
    (getPaymentStatus_falsy_transId "tx9" (by decide)).2.1 200 none (by decide)⟩

/-- The string length of this model agrees with the character count. -/
theorem string_length_eq_data_length (s : String) : s.length = s.data.length := rfl

/-- Strings are equal when their character lists are. -/
theorem string_eq_empty_iff (s : String) : s = "" ↔ s.data = [] := by
  constructor
  · rintro rfl; rfl
  · intro h
    cases s with
    | mk data => cases h; rfl

/-- C7 (confirmed): `getTransactionsByUserId` fails locally exactly when
the userId is empty, longer than 100 characters, or contains a character
outside `[a-zA-Z0-9\-_]`; every userId matching the pattern proceeds to
`GET /transaction/:userId`. -/
theorem getTransactionsByUserId_pattern (userId : String) :
    ((∃ e, getTransactionsByUserId userId = Except.error e) ↔
      (userId = "" ∨ 100 < userId.length ∨ ∃ c ∈ userId.data, isUserIdChar c = false))
    ∧ (userIdPatternTest userId = true →
      getTransactionsByUserId userId = Except.ok ⟨"GET", "/transaction/" ++ userId, []⟩) := by
  have hlen := string_length_eq_data_length userId
  by_cases h0 : userId = ""
  · subst h0
    refine ⟨⟨fun _ => Or.inl rfl, fun _ => ⟨⟨"User ID is required", none⟩, rfl⟩⟩, fun hp => ?_⟩
    exact absurd hp (by decide)
  · have h0' : userId.data ≠ [] := fun h => h0 ((string_eq_empty_iff userId).mpr h)
    have hpos : 1 ≤ userId.data.length := by
      cases hd : userId.data with
      | nil => exact absurd hd h0'
      | cons c rest => simp
    by_cases hp : userIdPatternTest userId = true
    · have hok : getTransactionsByUserId userId =
          Except.ok ⟨"GET", "/transaction/" ++ userId, []⟩ := by
        simp [getTransactionsByUserId, h0, hp]
      refine ⟨⟨fun ⟨e, he⟩ => ?_, fun h => ?_⟩, fun _ => hok⟩
      · rw [hok] at he; exact absurd he (by simp)
      · rcases h with h | h | ⟨c, hc, hcbad⟩
        · exact absurd h h0
        · have := hp
          simp only [userIdPatternTest, Bool.and_eq_true, decide_eq_true_eq] at this
          omega
        · have := hp
          simp only [userIdPatternTest, Bool.and_eq_true, decide_eq_true_eq,
            List.all_eq_true] at this
          have := this.2 c hc
          rw [hcbad] at this
          exact absurd this (by decide)
    · have herr : getTransactionsByUserId userId =
          Except.error ⟨"User ID must match pattern: ^[a-zA-Z0-9\\-_]\x7b1,100\x7d$", none⟩ := by
        simp [getTransactionsByUserId, h0, hp]
      refine ⟨⟨fun _ => ?_, fun _ => ⟨_, herr⟩⟩, fun h => absurd h hp⟩
      have hnp : ¬(1 ≤ userId.data.length ∧ userId.data.length ≤ 100
          ∧ ∀ c ∈ userId.data, isUserIdChar c = true) := by
        intro ⟨h1, h2, h3⟩
        exact hp (by simp only [userIdPatternTest, Bool.and_eq_true, decide_eq_true_eq,
          List.all_eq_true]; exact ⟨⟨h1, h2⟩, h3⟩)
      push_neg at hnp
      rcases Nat.lt_or_ge 100 userId.data.length with hgt | hle
      · exact Or.inr (Or.inl (by omega))
      · obtain ⟨c, hc, hcbad⟩ := hnp hpos hle
        exact Or.inr (Or.inr ⟨c, hc, by simpa using hcbad⟩)

/-- C7 witness: a well-formed userId proceeds to the network. -/
theorem getTransactionsByUserId_pattern_witness :
    getTransactionsByUserId "user_1-A" =
      Except.ok ⟨"GET", "/transaction/" ++ "user_1-A", []⟩ :=
  (getTransactionsByUserId_pattern "user_1-A").2 (by decide)

/-- Appending query parameters factors through the already-built prefix. -/
theorem appendQueryParams_factor (params : List (String × QueryVal))
    (init : List (String × String)) :
    appendQueryParams init params = init ++ appendQueryParams [] params := by
  induction params generalizing init with
  | nil => simp [appendQueryParams]
  | cons kv rest ih =>
    have hstep : ∀ i, appendQueryParams i (kv :: rest) =
        appendQueryParams
          (if kv.2 ≠ QueryVal.undef ∧ kv.2 ≠ QueryVal.null then i ++ [(kv.1, jsString kv.2)]
            else i) rest :=
      fun i => rfl
    rw [hstep init, hstep []]
    by_cases h : kv.2 ≠ QueryVal.undef ∧ kv.2 ≠ QueryVal.null
    · rw [if_pos h, if_pos h, List.nil_append, ih (init ++ [(kv.1, jsString kv.2)]),
        ih [(kv.1, jsString kv.2)], List.append_assoc]
    · rw [if_neg h, if_neg h, ih init]

/-- C9 (confirmed): exactly the query entries whose value is neither
undefined nor null appear, stringified, among the search parameters of the
constructed URL; undefined and null entries are omitted. -/
theorem appendQueryParams_membership (params : List (String × QueryVal)) (k s : String) :
    (k, s) ∈ appendQueryParams [] params ↔
      ∃ v, (k, v) ∈ params ∧ v ≠ QueryVal.undef ∧ v ≠ QueryVal.null ∧ jsString v = s := by
  induction params with
  | nil => simp [appendQueryParams]
  | cons kv rest ih =>
    obtain ⟨k0, v0⟩ := kv
    have hstep : appendQueryParams [] ((k0, v0) :: rest) =
        (if v0 ≠ QueryVal.undef ∧ v0 ≠ QueryVal.null then [(k0, jsString v0)] else [])
          ++ appendQueryParams [] rest := by
      simp only [appendQueryParams, List.foldl_cons]
      by_cases h : v0 ≠ QueryVal.undef ∧ v0 ≠ QueryVal.null
      · rw [if_pos h, if_pos h]
        exact appendQueryParams_factor rest [(k0, jsString v0)]
      · rw [if_neg h, if_neg h]
        simp [appendQueryParams]
    rw [hstep]
    by_cases h : v0 ≠ QueryVal.undef ∧ v0 ≠ QueryVal.null
    · rw [if_pos h]
      constructor
      · intro hmem
        rcases List.mem_append.mp hmem with hl | hr
        · have heq := List.mem_singleton.mp hl
          injection heq with hk hs
          subst hk
          subst hs
          exact ⟨v0, List.mem_cons_self _ _, h.1, h.2, rfl⟩
        · obtain ⟨v, hv, hvu, hvn, hvs⟩ := ih.mp hr
          exact ⟨v, List.mem_cons_of_mem _ hv, hvu, hvn, hvs⟩
      · rintro ⟨v, hv, hvu, hvn, hvs⟩
        rcases List.mem_cons.mp hv with heq | htail
        · injection heq with hk hv0
          subst hk
          subst hv0
          exact List.mem_append.mpr (Or.inl (List.mem_singleton.mpr (by rw [hvs])))
        · exact List.mem_append.mpr (Or.inr (ih.mpr ⟨v, htail, hvu, hvn, hvs⟩))
    · rw [if_neg h, List.nil_append, ih]
      constructor
      · rintro ⟨v, hv, hvu, hvn, hvs⟩
        exact ⟨v, List.mem_cons_of_mem _ hv, hvu, hvn, hvs⟩
      · rintro ⟨v, hv, hvu, hvn, hvs⟩
        rcases List.mem_cons.mp hv with heq | htail
        · injection heq with hk hv0
          subst hv0
          exact absurd ⟨hvu, hvn⟩ h
        · exact ⟨v, htail, hvu, hvn, hvs⟩

/-- C9 witness: a concrete parameter map keeps the numeric limit entry and
omits the undefined and null ones. -/
theorem appendQueryParams_membership_witness :
    ("limit", "10") ∈ appendQueryParams []
      [("status", QueryVal.undef), ("limit", QueryVal.num 10), ("sort", QueryVal.null)] :=
  (appendQueryParams_membership
      [("status", QueryVal.undef), ("limit", QueryVal.num 10), ("sort", QueryVal.null)]
      "limit" "10").mpr
    ⟨QueryVal.num 10, by decide, by decide, by decide, by decide⟩

/-- C2 counterexample: a config with an explicit but empty `baseUrl` and a
live-format key. The claim says the resolved base URL is the given
`baseUrl` with its trailing slash stripped, which is the empty string; the
code treats the empty `baseUrl` as absent and resolves the live URL from
the key prefix. -/
theorem resolveBaseUrl_empty_baseUrl_cex :
    resolveBaseUrl ⟨"user", "FAK_live123", none, some ""⟩ = "https://live.fapshi.com"
    ∧ stripTrailingSlash "" = ""
    ∧ ("https://live.fapshi.com" : String) ≠ "" :=
  ⟨by decide, by decide, by decide⟩

/-- C2 (amended): the resolved base URL is the explicit `baseUrl` with its
trailing slash stripped when a non-empty `baseUrl` is given; when it is
absent or empty, the live URL exactly when `environment` is live, or when
`environment` is absent and the key starts with `FAK_` but not
`FAK_TEST_`; the sandbox URL otherwise. Explicit `baseUrl` takes
precedence over `environment`, which takes precedence over key-prefix
inference. -/
theorem resolveBaseUrl_matches_claim (cfg : FapshiConfig) :
    resolveBaseUrl cfg = claimBaseUrl cfg := by
  obtain ⟨user, key, env, base⟩ := cfg
  have hinfer : resolveFromEnvironment ⟨user, key, env, base⟩ =
      claimInferredBaseUrl ⟨user, key, env, base⟩ := by
    cases env with
    | none =>
      cases hT : strStartsWith key "FAK_TEST_" <;> cases hF : strStartsWith key "FAK_" <;>
        simp [resolveFromEnvironment, claimInferredBaseUrl, detectEnvironmentFromApiKey,
          hT, hF]
    | some e =>
      cases e <;> simp [resolveFromEnvironment, claimInferredBaseUrl]
  cases base with
  | none => simpa [resolveBaseUrl, claimBaseUrl] using hinfer
  | some b =>
    by_cases hb : b = ""
    · subst hb
      simpa [resolveBaseUrl, claimBaseUrl] using hinfer
    · simp [resolveBaseUrl, claimBaseUrl, hb]

end Fapshi
